import Mathlib

/-!
Shallow embedding of `module/os/freebsd/spl/spl_taskq.c`: the FreeBSD SPL
task-queue shim of ZFS.  The shim implements the Solaris `taskq` interface on
top of three host collaborators: the `uma` slab allocator (the Entry Store),
the FreeBSD `taskqueue(9)` facility (run list + worker threads), and the
callout-backed timeout tasks (the Delay Gate).  The collaborators are modelled
by their documented contracts; every `taskq_*` function below is a direct
transliteration of the C source.
-/

namespace SplTaskq

/-- Value of `#define TIMEOUT_TASK 1` in spl_taskq.c. -/
def TIMEOUT_TASK : Nat := 1

/-- Value of `#define NORMAL_TASK 2` in spl_taskq.c. -/
def NORMAL_TASK : Nat := 2

/-- Modelled from the spec: the dispatch-flag constants come from the header
`sys/taskq.h`, which is not part of the sources here.  The spec describes
`SLEEP` ("lets allocation wait for memory") and `FRONT` ("insert at head of
run list") as selectable flags, so each flag is modelled as a distinct bit of
the `uint_t flags` word. -/
def TQ_SLEEP : Nat := 1

/-- Modelled from the spec: `NOQUEUE` dispatch-flag bit, see `TQ_SLEEP`. -/
def TQ_NOQUEUE : Nat := 2

/-- Modelled from the spec: `FRONT` dispatch-flag bit, see `TQ_SLEEP`. -/
def TQ_FRONT : Nat := 8

/-- Modelled from the spec: the creation-flag "percentage of available
parallelism" bit from `sys/taskq.h` (not in the sources here). -/
def TASKQ_THREADS_CPU_PCT : Nat := 16

/-- FreeBSD `errno` value returned by `taskqueue_cancel` for a task that is
currently running. -/
def EBUSY : Nat := 16

/-- Allocation mode passed to `uma_zalloc`: may-block (`M_WAITOK`) or
fail-fast (`M_NOWAIT`). -/
inductive MFlag where
  | M_WAITOK : MFlag
  | M_NOWAIT : MFlag
deriving DecidableEq, Repr

/-- A `taskq_ent_t` record as the shim fills it in: work function, argument
(both opaque tokens) and the `tqent_type` tag. -/
structure TaskqEnt where
  tqent_func : Nat
  tqent_arg : Nat
  tqent_type : Nat
deriving DecidableEq, Repr

/-- Which trampoline `TASK_INIT` registered as the task's `ta_func`:
`taskq_run` (allocator-owned entries) or `taskq_run_ent` (caller-owned). -/
inductive Handler where
  | hRun : Handler
  | hRunEnt : Handler
deriving DecidableEq, Repr

/-- A `struct task` as registered with the `taskqueue(9)` collaborator:
priority, trampoline, and the entry identifier stored in `ta_context`. -/
structure KTask where
  ta_priority : Nat
  ta_handler : Handler
  ta_context : Nat
deriving DecidableEq, Repr

/-- Whole-shim state: the Entry Store's live allocations (identifier ↦
record), its remaining free slots and next fresh address, the `taskqueue`
run list (priority order, head next to run), the registered timeout tasks
with their remaining ticks, the identifiers whose task is mid-execution,
and the current tick (`ddi_get_lbolt`). -/
structure TqState where
  live : List (Nat × TaskqEnt)
  capacity : Nat
  nextAddr : Nat
  runlist : List KTask
  timeouts : List (KTask × Nat)
  runningIds : List Nat
  now : Int
deriving DecidableEq, Repr

/-- Read a live Entry-Store allocation; `none` models a dereference of
storage that is not (or no longer) allocated. -/
def lookupEnt (st : TqState) (id : Nat) : Option TaskqEnt :=
  (st.live.find? (fun p => p.1 = id)).map (fun p => p.2)

/-- Collaborator `uma_zalloc(taskq_zone, mflag)`: hand out a fresh address.  `M_NOWAIT`
fails when the zone is exhausted; `M_WAITOK` blocks until storage is
available and then succeeds (the blocking itself is not modelled). -/
def uma_zalloc (st : TqState) (mflag : MFlag) : Option (Nat × TqState) :=
  match mflag with
  | MFlag.M_WAITOK =>
      some (st.nextAddr,
        { st with nextAddr := st.nextAddr + 1, capacity := st.capacity - 1 })
  | MFlag.M_NOWAIT =>
      if st.capacity = 0 then none
      else
        some (st.nextAddr,
          { st with nextAddr := st.nextAddr + 1, capacity := st.capacity - 1 })

/-- Collaborator `uma_zfree(taskq_zone, ent)`: release the record at `id` back to the
Entry Store. -/
def uma_zfree (st : TqState) (id : Nat) : TqState :=
  { st with live := st.live.filter (fun p => p.1 ≠ id),
            capacity := st.capacity + 1 }

/-- Collaborator `taskqueue_enqueue` insertion discipline: tasks are kept in descending
`ta_priority` order, FIFO among equal priorities, so a new task goes after
every queued task of greater or equal priority. -/
def insertPrio (rl : List KTask) (t : KTask) : List KTask :=
  rl.takeWhile (fun x => t.ta_priority ≤ x.ta_priority) ++
    t :: rl.dropWhile (fun x => t.ta_priority ≤ x.ta_priority)

/-- Collaborator `taskqueue_cancel(queue, task, &pend)`: remove the task from the run
list if it is still queued (rc 0); report `EBUSY` if it is currently
running; otherwise it was never pending or already done (rc 0). -/
def taskqueue_cancel (st : TqState) (id : Nat) : Nat × TqState :=
  if st.runlist.any (fun t => t.ta_context = id) then
    (0, { st with runlist := st.runlist.filter (fun t => t.ta_context ≠ id) })
  else if st.runningIds.contains id then (EBUSY, st)
  else (0, st)

/-- Collaborator `taskqueue_cancel_timeout(queue, timeout_task, &pend)`: additionally
cancel the callout registration when the deadline has not fired yet. -/
def taskqueue_cancel_timeout (st : TqState) (id : Nat) : Nat × TqState :=
  if st.timeouts.any (fun p => p.1.ta_context = id) then
    (0, { st with timeouts := st.timeouts.filter (fun p => p.1.ta_context ≠ id) })
  else if st.runlist.any (fun t => t.ta_context = id) then
    (0, { st with runlist := st.runlist.filter (fun t => t.ta_context ≠ id) })
  else if st.runningIds.contains id then (EBUSY, st)
  else (0, st)

/-- Function `taskq_cancel_id(tq, id)`.  A null identifier returns 0 at once.  For a
`TIMEOUT_TASK` entry the timeout cancellation runs and then the entry is
passed to `uma_zfree` unconditionally; otherwise only `taskqueue_cancel`
runs.  Reading `ent->tqent_type` from an identifier whose storage is no
longer allocated is undefined behaviour, modelled as `none`. -/
def taskq_cancel_id (st : TqState) (id : Nat) : Option (Nat × TqState) :=
  if id = 0 then some (0, st)
  else
    match lookupEnt st id with
    | none => none
    | some ent =>
        if ent.tqent_type = TIMEOUT_TASK then
          let r := taskqueue_cancel_timeout st id
          some (r.1, uma_zfree r.2 id)
        else
          some (taskqueue_cancel st id)

/-- Function `taskq_run(arg, pending)`: worker trampoline for entries created by
`taskq_dispatch` / `taskq_dispatch_delay`.  Executes `tqent_func(tqent_arg)`
(no effect on queue state in this model) and then frees the entry exactly
when `tqent_type == NORMAL_TASK`. -/
def taskq_run (st : TqState) (id : Nat) (ent : TaskqEnt) : TqState :=
  if ent.tqent_type = NORMAL_TASK then uma_zfree st id else st

/-- Function `taskq_run_ent(arg, pending)`: worker trampoline for caller-owned
entries dispatched by `taskq_dispatch_ent`; runs the function and never
frees the entry. -/
def taskq_run_ent (st : TqState) (_id : Nat) (_ent : TaskqEnt) : TqState := st

/-- The allocation-mode selection shared verbatim by `taskq_dispatch` and
`taskq_dispatch_delay`:
`if ((flags & (TQ_SLEEP | TQ_NOQUEUE)) == TQ_SLEEP) mflag = M_WAITOK;
else mflag = M_NOWAIT;`. -/
def mflagFor (flags : Nat) : MFlag :=
  if flags &&& (TQ_SLEEP ||| TQ_NOQUEUE) = TQ_SLEEP then MFlag.M_WAITOK
  else MFlag.M_NOWAIT

/-- Function `taskq_dispatch(tq, func, arg, flags)`: pick the allocation mode, give
the task priority `!!(flags & TQ_FRONT)`, allocate a `NORMAL_TASK` entry
(returning 0 on failure), register `taskq_run` via `TASK_INIT` and enqueue.
The returned identifier is the entry's storage address. -/
def taskq_dispatch (st : TqState) (func arg flags : Nat) : Nat × TqState :=
  let prio : Nat := if flags &&& TQ_FRONT ≠ 0 then 1 else 0
  match uma_zalloc st (mflagFor flags) with
  | none => (0, st)
  | some (id, st1) =>
      let ent : TaskqEnt :=
        { tqent_func := func, tqent_arg := arg, tqent_type := NORMAL_TASK }
      let task : KTask :=
        { ta_priority := prio, ta_handler := Handler.hRun, ta_context := id }
      (id, { st1 with live := (id, ent) :: st1.live,
                      runlist := insertPrio st1.runlist task })

/-- Function `taskq_dispatch_delay(tq, func, arg, flags, expire_time)`: with
`timo = expire_time - ddi_get_lbolt()`, a non-positive `timo` tail-calls
`taskq_dispatch`; otherwise a `TIMEOUT_TASK` entry is allocated and its
timeout task — initialised by `TIMEOUT_TASK_INIT` with priority 0 and
trampoline `taskq_run` — is registered with the callout for `timo` ticks. -/
def taskq_dispatch_delay (st : TqState) (func arg flags : Nat)
    (expire_time : Int) : Nat × TqState :=
  let timo : Int := expire_time - st.now
  if timo ≤ 0 then taskq_dispatch st func arg flags
  else
    match uma_zalloc st (mflagFor flags) with
    | none => (0, st)
    | some (id, st1) =>
        let ent : TaskqEnt :=
          { tqent_func := func, tqent_arg := arg, tqent_type := TIMEOUT_TASK }
        let task : KTask :=
          { ta_priority := 0, ta_handler := Handler.hRun, ta_context := id }
        (id, { st1 with live := (id, ent) :: st1.live,
                        timeouts := st1.timeouts ++ [(task, timo.toNat)] })

/-- Function `taskq_dispatch_ent(tq, func, arg, flags, task)`: caller-owned variant.
No allocation; the caller's entry gets its function and argument fields set
(`tqent_type` is left untouched), `TASK_INIT` registers `taskq_run_ent` with
priority `!!(flags & TQ_FRONT)`, and the task is enqueued.  Returns the
updated queue state and the updated caller entry. -/
def taskq_dispatch_ent (st : TqState) (func arg flags : Nat) (id : Nat)
    (ent : TaskqEnt) : TqState × TaskqEnt :=
  let prio : Nat := if flags &&& TQ_FRONT ≠ 0 then 1 else 0
  let ent2 : TaskqEnt := { ent with tqent_func := func, tqent_arg := arg }
  let task : KTask :=
    { ta_priority := prio, ta_handler := Handler.hRunEnt, ta_context := id }
  ({ st with runlist := insertPrio st.runlist task }, ent2)

/-- The callout firing for the first registered timeout task: the timer
facility hands the task to the run list via `taskqueue_enqueue`. -/
def timeoutFire (st : TqState) : TqState :=
  match st.timeouts with
  | [] => st
  | (t, _) :: rest =>
      { st with timeouts := rest, runlist := insertPrio st.runlist t }

/-- One worker iteration: pop the head of the run list and run the
trampoline that `TASK_INIT` registered for it (`ta_context` holds the entry
address). -/
def workerStep (st : TqState) : TqState :=
  match st.runlist with
  | [] => st
  | t :: rest =>
      let st1 := { st with runlist := rest }
      match t.ta_handler with
      | Handler.hRun =>
          match lookupEnt st1 t.ta_context with
          | some ent => taskq_run st1 t.ta_context ent
          | none => st1
      | Handler.hRunEnt => taskq_run_ent st1 t.ta_context ⟨0, 0, 0⟩

/-- Function `taskq_wait_id(tq, id)`: `taskqueue_drain(tq->tq_queue,
&ent->tqent_task)` with `ent = (void *)id` and no null check, so a null
identifier dereferences a null entry pointer (modelled as `none`).  For a
valid entry the drain blocks until the task is neither queued nor running
and then returns; the boolean records whether it had to wait at all. -/
def taskq_wait_id (st : TqState) (id : Nat) : Option Bool :=
  if id = 0 then none
  else
    some (st.runlist.any (fun t => t.ta_context = id) ||
      st.runningIds.contains id)

/-- The thread-count computation of `taskq_create_with_init`: with
`TASKQ_THREADS_CPU_PCT` set, `nthreads = MAX((mp_ncpus * nthreads) / 100, 1)`;
otherwise the requested count is used as given. -/
def taskq_create_nthreads (mp_ncpus nthreads flags : Nat) : Nat :=
  if flags &&& TASKQ_THREADS_CPU_PCT ≠ 0 then
    max ((mp_ncpus * nthreads) / 100) 1
  else nthreads

/-- The host-facility calls made at process start and stop. -/
inductive SysOp where
  | opTsdCreate : SysOp
  | opZoneCreate : SysOp
  | opCreateSysQ : SysOp
  | opCreateDelayQ : SysOp
  | opDestroySysQ : SysOp
  | opDestroyDelayQ : SysOp
  | opZoneDestroy : SysOp
  | opTsdDestroy : SysOp
deriving DecidableEq, Repr

/-- Hook `system_taskq_init` (SYSINIT), as the ordered sequence of calls it
makes: `tsd_create`, `uma_zcreate`, then `taskq_create` for `system_taskq`
and for `system_delay_taskq`. -/
def system_taskq_init_ops : List SysOp :=
  [SysOp.opTsdCreate, SysOp.opZoneCreate, SysOp.opCreateSysQ,
   SysOp.opCreateDelayQ]

/-- Hook `system_taskq_fini` (SYSUNINIT), as the ordered sequence of calls
it makes: `taskq_destroy(system_taskq)`, `uma_zdestroy`, `tsd_destroy`. -/
def system_taskq_fini_ops : List SysOp :=
  [SysOp.opDestroySysQ, SysOp.opZoneDestroy, SysOp.opTsdDestroy]

/-! Concrete states used to evaluate the code on specific scenarios. -/

/-- A small starting state: empty queue, four free Entry-Store slots, next
fresh storage address 5, current tick 0. -/
def baseState : TqState :=
  { live := [], capacity := 4, nextAddr := 5, runlist := [], timeouts := [],
    runningIds := [], now := 0 }

/-- State after `taskq_dispatch_delay(tq, 7, 9, 0, 10)` from `baseState`:
entry 5 is a live `TIMEOUT_TASK` with a 10-tick callout registration. -/
def delayedState : TqState := (taskq_dispatch_delay baseState 7 9 0 10).2

/-- State after a successful `taskq_cancel_id` of entry 5 in `delayedState`:
the registration is gone and the storage has been released. -/
def cancelledOnceState : TqState :=
  { live := [], capacity := 4, nextAddr := 6, runlist := [], timeouts := [],
    runningIds := [], now := 0 }

/-- A state in which entry 5 is a live `TIMEOUT_TASK` whose trampoline is
currently executing (its callout has fired and a worker picked it up). -/
def runningTimeoutState : TqState :=
  { live := [(5, ⟨7, 9, TIMEOUT_TASK⟩)], capacity := 4, nextAddr := 6,
    runlist := [], timeouts := [], runningIds := [5], now := 0 }

/-! Theorems settling the claims. -/

/-- C1: a worker is claimed to release every allocator-owned entry (kind
Normal or Timeout) back to the Entry Store after running it, and to leave
caller-owned entries alone.  Evaluating the code: an entry created by
`taskq_dispatch_delay` (kind `TIMEOUT_TASK`), after its deadline fires and a
worker pops and runs it, is still allocated — `taskq_run` frees a finished
entry only when `tqent_type == NORMAL_TASK`, so every Timeout entry that runs
to completion leaks.  (The `taskq_dispatch` entry of the last conjunct is
released as claimed.) -/
theorem c1_worker_leaks_timeout_entry :
    (workerStep (timeoutFire delayedState)).live = [(5, ⟨7, 9, TIMEOUT_TASK⟩)] ∧
    (workerStep (timeoutFire delayedState)).runlist = [] ∧
    (workerStep (timeoutFire delayedState)).timeouts = [] ∧
    (workerStep (taskq_dispatch baseState 7 9 0).2).live = [] := by decide

/-- C2: the claim says a cancelled still-pending Timeout entry's storage is
released only when the cancellation succeeds — not when the entry has
already fired or is running.  Evaluating the code on a Timeout entry whose
trampoline is running: `taskqueue_cancel_timeout` fails with `EBUSY`, yet
`taskq_cancel_id` passes the entry to `uma_zfree` unconditionally, releasing
storage that the running trampoline still uses. -/
theorem c2_storage_released_despite_failed_cancel :
    taskq_cancel_id runningTimeoutState 5 =
      some (EBUSY,
        { live := [], capacity := 5, nextAddr := 6, runlist := [],
          timeouts := [], runningIds := [5], now := 0 }) ∧
    EBUSY ≠ 0 := by decide

/-- C3: cancelling an identifier from `taskq_dispatch_delay` twice in a row
is claimed to make the second call a harmless no-op.  Evaluating the code:
the first cancel releases entry 5's storage back to the Entry Store, so the
second `taskq_cancel_id` reads `ent->tqent_type` from freed storage (and
would free it again) — undefined behaviour, not a no-op. -/
theorem c3_double_cancel_not_harmless :
    taskq_cancel_id delayedState 5 = some (0, cancelledOnceState) ∧
    taskq_cancel_id cancelledOnceState 5 = none := by decide

/-- C8: both process-wide queues are claimed to be destroyed at shutdown
before the Entry Store is torn down.  Evaluating the code: the startup hook
creates both `system_taskq` and `system_delay_taskq`, but the shutdown hook
calls `taskq_destroy` only on `system_taskq` (then tears down the zone and
the TSD key); `system_delay_taskq` is never destroyed. -/
theorem c8_delay_queue_never_destroyed :
    SysOp.opCreateSysQ ∈ system_taskq_init_ops ∧
    SysOp.opCreateDelayQ ∈ system_taskq_init_ops ∧
    system_taskq_fini_ops =
      [SysOp.opDestroySysQ, SysOp.opZoneDestroy, SysOp.opTsdDestroy] ∧
    SysOp.opDestroyDelayQ ∉ system_taskq_fini_ops := by decide

/-- C4: `taskq_dispatch_delay` whose remaining time `expire_time - now` is
zero or negative behaves identically — same return value, same resulting
state — to `taskq_dispatch` with the same queue, function, argument and
flags: the code tail-calls `taskq_dispatch` when `timo <= 0`. -/
theorem c4_delay_elapsed_equals_dispatch (st : TqState) (func arg flags : Nat)
    (expire_time : Int) (h : expire_time - st.now ≤ 0) :
    taskq_dispatch_delay st func arg flags expire_time =
      taskq_dispatch st func arg flags := by
  unfold taskq_dispatch_delay
  exact if_pos h

/-- C4 witness: with the current tick 0 and `expire_time = 0` the remaining
time is 0 and the delayed dispatch coincides with the immediate one. -/
theorem c4_delay_elapsed_equals_dispatch_witness :
    (0 : Int) - baseState.now ≤ 0 ∧
    taskq_dispatch_delay baseState 7 9 3 0 = taskq_dispatch baseState 7 9 3 :=
  ⟨by decide, c4_delay_elapsed_equals_dispatch baseState 7 9 3 0 (by decide)⟩

/-- C5 counterexample: the claim says `wait_for` with a null identifier is a
benign no-op, but `taskq_wait_id` has no null guard — it hands
`&((taskq_ent_t *)0)->tqent_task` straight to `taskqueue_drain`, a null
dereference (modelled as `none`, not a normal return). -/
theorem c5_wait_for_null_faults : taskq_wait_id baseState 0 = none := by decide

/-- C5 amended: `taskq_cancel_id` with a null identifier is a benign no-op
returning 0 and touching no entry, and `taskq_wait_id` on a non-null entry
that is neither queued nor running returns immediately; only the null-`id`
`wait_for` case of the claim fails. -/
theorem c5_cancel_null_noop_and_wait_idle_immediate (st : TqState) (id : Nat)
    (hid : id ≠ 0)
    (hq : st.runlist.any (fun t => t.ta_context = id) = false)
    (hr : id ∉ st.runningIds) :
    taskq_cancel_id st 0 = some (0, st) ∧ taskq_wait_id st id = some false := by
  refine ⟨by simp [taskq_cancel_id], ?_⟩
  simp [taskq_wait_id, hid, hq, hr]

/-- C5 witness: in `baseState`, identifier 5 is non-null and never pending;
cancel of the null identifier is a no-op and the wait returns at once. -/
theorem c5_cancel_null_noop_and_wait_idle_immediate_witness :
    (5 : Nat) ≠ 0 ∧
    taskq_cancel_id baseState 0 = some (0, baseState) ∧
    taskq_wait_id baseState 5 = some false :=
  ⟨by decide,
   c5_cancel_null_noop_and_wait_idle_immediate baseState 5 (by decide)
     (by decide) (by decide)⟩

/-- C6: for every successful `taskq_dispatch` the returned identifier is the
entry's own storage address — the dispatched record lives at exactly that
identifier — and under the fail-fast allocation mode an exhausted Entry
Store makes `taskq_dispatch` return the null identifier 0 with the queue
state unchanged. -/
theorem c6_dispatch_id_is_address_and_exhaustion_is_noop (st : TqState)
    (func arg flags : Nat) :
    (∀ id st2, taskq_dispatch st func arg flags = (id, st2) → id ≠ 0 →
        lookupEnt st2 id = some ⟨func, arg, NORMAL_TASK⟩) ∧
    (mflagFor flags = MFlag.M_NOWAIT → st.capacity = 0 →
        taskq_dispatch st func arg flags = (0, st)) := by
  constructor
  · intro id st2 hd hne
    unfold taskq_dispatch at hd
    cases hz : uma_zalloc st (mflagFor flags) with
    | none =>
        rw [hz] at hd
        simp only [Prod.mk.injEq] at hd
        exact absurd hd.1.symm hne
    | some pr =>
        rw [hz] at hd
        simp only [Prod.mk.injEq] at hd
        obtain ⟨hid, hst⟩ := hd
        subst hid
        subst hst
        simp [lookupEnt]
  · intro hm hc
    unfold taskq_dispatch
    rw [hm]
    unfold uma_zalloc
    rw [if_pos hc]

/-- C6 witness: dispatching with fail-fast flags (`TQ_NOQUEUE`) from
`baseState` stores the entry at the returned address 5, and the same
dispatch from an exhausted store returns 0 leaving the state unchanged. -/
theorem c6_dispatch_id_is_address_and_exhaustion_is_noop_witness :
    lookupEnt (taskq_dispatch baseState 7 9 2).2 5 =
      some ⟨7, 9, NORMAL_TASK⟩ ∧
    taskq_dispatch { baseState with capacity := 0 } 7 9 2 =
      (0, { baseState with capacity := 0 }) :=
  ⟨(c6_dispatch_id_is_address_and_exhaustion_is_noop baseState 7 9 2).1 5
      (taskq_dispatch baseState 7 9 2).2 (by decide) (by decide),
   (c6_dispatch_id_is_address_and_exhaustion_is_noop
      { baseState with capacity := 0 } 7 9 2).2 (by decide) (by decide)⟩

/-- C7: with the "percentage of available parallelism" creation flag set the
effective worker count of `taskq_create_with_init` is
`max(1, requested × mp_ncpus / 100)` with integer division, and without the
flag it is the requested count unchanged. -/
theorem c7_effective_thread_count (mp_ncpus nthreads flags : Nat) :
    (flags &&& TASKQ_THREADS_CPU_PCT ≠ 0 →
        taskq_create_nthreads mp_ncpus nthreads flags =
          max 1 (nthreads * mp_ncpus / 100)) ∧
    (flags &&& TASKQ_THREADS_CPU_PCT = 0 →
        taskq_create_nthreads mp_ncpus nthreads flags = nthreads) := by
  constructor
  · intro h
    unfold taskq_create_nthreads
    rw [if_pos h, Nat.mul_comm, Nat.max_comm]
  · intro h
    unfold taskq_create_nthreads
    rw [if_neg (fun hc => hc h)]

/-- C7 witness: 75 percent of 8 CPUs gives `max 1 (75 * 8 / 100) = 6`
workers, and without the flag the requested 75 is kept. -/
theorem c7_effective_thread_count_witness :
    ((16 : Nat) &&& TASKQ_THREADS_CPU_PCT ≠ 0 ∧
      taskq_create_nthreads 8 75 16 = max 1 (75 * 8 / 100)) ∧
    ((0 : Nat) &&& TASKQ_THREADS_CPU_PCT = 0 ∧
      taskq_create_nthreads 8 75 0 = 75) :=
  ⟨⟨by decide, (c7_effective_thread_count 8 75 16).1 (by decide)⟩,
   ⟨by decide, (c7_effective_thread_count 8 75 0).2 (by decide)⟩⟩

/-- C9: the allocation-mode selection shared by `taskq_dispatch` and
`taskq_dispatch_delay` picks the may-block mode `M_WAITOK` exactly when the
`TQ_SLEEP` bit is set and the `TQ_NOQUEUE` bit is clear; in particular with
both bits set the fail-fast mode is used despite `TQ_SLEEP`. -/
theorem c9_may_block_iff_sleep_and_not_noqueue (flags : Nat) :
    mflagFor flags = MFlag.M_WAITOK ↔
      (flags.testBit 0 ∧ ¬ flags.testBit 1) := by
  have hif : mflagFor flags =
      (if flags &&& 3 = 1 then MFlag.M_WAITOK else MFlag.M_NOWAIT) := rfl
  have key : (flags &&& 3 = 1) ↔ (flags.testBit 0 ∧ ¬ flags.testBit 1) := by
    rw [Nat.and_pow_two_sub_one_eq_mod flags 2]
    rw [show flags.testBit 0 = decide (flags / 2 ^ 0 % 2 = 1) from
      Nat.testBit_to_div_mod]
    rw [show flags.testBit 1 = decide (flags / 2 ^ 1 % 2 = 1) from
      Nat.testBit_to_div_mod]
    simp only [pow_zero, pow_one, Nat.div_one, decide_eq_true_eq]
    omega
  rw [hif]
  rcases Decidable.em (flags &&& 3 = 1) with hc | hc
  · simp only [if_pos hc, true_iff]
    exact key.mp hc
  · simp only [if_neg hc]
    constructor
    · intro h
      exact MFlag.noConfusion h
    · intro hP
      exact absurd (key.mpr hP) hc

/-- A task of priority 0 goes behind every queued task: `insertPrio` with a
priority-0 task is a plain tail append. -/
theorem insertPrio_priority_zero (rl : List KTask) (t : KTask)
    (ht : t.ta_priority = 0) : insertPrio rl t = rl ++ [t] := by
  induction rl with
  | nil => rfl
  | cons x xs ih =>
      unfold insertPrio at ih ⊢
      simp only [ht, List.takeWhile_cons, List.dropWhile_cons, Nat.zero_le,
        decide_True, if_true, List.cons_append] at ih ⊢
      rw [ih]

/-- A successful `uma_zalloc` hands out `nextAddr` and only advances the
address counter and the free-slot count. -/
theorem uma_zalloc_some (st : TqState) (m : MFlag) (a : Nat) (st1 : TqState)
    (h : uma_zalloc st m = some (a, st1)) :
    a = st.nextAddr ∧
    st1 = { st with nextAddr := st.nextAddr + 1,
                    capacity := st.capacity - 1 } := by
  cases m with
  | M_WAITOK =>
      unfold uma_zalloc at h
      simp only [Option.some.injEq, Prod.mk.injEq] at h
      exact ⟨h.1.symm, h.2.symm⟩
  | M_NOWAIT =>
      unfold uma_zalloc at h
      rcases Decidable.em (st.capacity = 0) with hc | hc
      · rw [if_pos hc] at h
        exact Option.noConfusion h
      · rw [if_neg hc] at h
        simp only [Option.some.injEq, Prod.mk.injEq] at h
        exact ⟨h.1.symm, h.2.symm⟩

/-- C10: when the deadline of `taskq_dispatch_delay` has not yet elapsed,
the `TQ_FRONT` flag is ignored: the timeout task is registered with priority
0 whatever `flags` holds (the code passes the literal 0 to
`TIMEOUT_TASK_INIT`), and a priority-0 task is always enqueued at the tail
of a run list, never at its head position ahead of queued work. -/
theorem c10_delay_ignores_front (st : TqState) (func arg flags : Nat)
    (expire_time : Int) (h : st.now < expire_time) (id : Nat) (st2 : TqState)
    (hd : taskq_dispatch_delay st func arg flags expire_time = (id, st2))
    (hid : id ≠ 0) :
    st2.timeouts = st.timeouts ++
      [({ ta_priority := 0, ta_handler := Handler.hRun, ta_context := id },
        (expire_time - st.now).toNat)] ∧
    (∀ rl : List KTask,
        insertPrio rl
            { ta_priority := 0, ta_handler := Handler.hRun, ta_context := id }
          = rl ++
            [{ ta_priority := 0, ta_handler := Handler.hRun,
               ta_context := id }]) := by
  have hnot : ¬ (expire_time - st.now ≤ 0) := by omega
  unfold taskq_dispatch_delay at hd
  rw [if_neg hnot] at hd
  refine ⟨?_, fun rl => insertPrio_priority_zero rl _ rfl⟩
  cases hz : uma_zalloc st (mflagFor flags) with
  | none =>
      rw [hz] at hd
      simp only [Prod.mk.injEq] at hd
      exact absurd hd.1.symm hid
  | some pr =>
      rw [hz] at hd
      obtain ⟨ha, hst1⟩ := uma_zalloc_some st (mflagFor flags) pr.1 pr.2
        (by rw [hz])
      simp only [Prod.mk.injEq] at hd
      obtain ⟨hida, hst2⟩ := hd
      subst hida
      subst hst2
      simp [hst1]

/-- C10 witness: dispatching with `TQ_FRONT` set (flags 8) and a 10-tick
remaining delay registers the timeout task with priority 0, and firing that
priority-0 task onto a non-empty run list puts it at the tail. -/
theorem c10_delay_ignores_front_witness :
    baseState.now < 10 ∧
    (taskq_dispatch_delay baseState 7 9 8 10).2.timeouts =
      baseState.timeouts ++
        [({ ta_priority := 0, ta_handler := Handler.hRun, ta_context := 5 },
          10)] ∧
    insertPrio [{ ta_priority := 0, ta_handler := Handler.hRunEnt,
                  ta_context := 9 }]
        { ta_priority := 0, ta_handler := Handler.hRun, ta_context := 5 } =
      [{ ta_priority := 0, ta_handler := Handler.hRunEnt, ta_context := 9 },
       { ta_priority := 0, ta_handler := Handler.hRun, ta_context := 5 }] :=
  ⟨by decide,
   (c10_delay_ignores_front baseState 7 9 8 10 (by decide) 5
      (taskq_dispatch_delay baseState 7 9 8 10).2 (by decide) (by decide)).1,
   (c10_delay_ignores_front baseState 7 9 8 10 (by decide) 5
      (taskq_dispatch_delay baseState 7 9 8 10).2 (by decide) (by decide)).2
     [{ ta_priority := 0, ta_handler := Handler.hRunEnt, ta_context := 9 }]⟩

end SplTaskq
